import Mathlib

/-!
Shallow embedding of the two Unreal Engine plugin function libraries
`UPoseSearchPythonExtensionsLibrary`
(src/motion_system/root-motion-matching-poc/plugin_files/PoseSearchPythonExtensionsLibrary.cpp)
and `UAAANKPoseBlueprintLibrary`
(src/motion_system_track_based/plugins/AAANKPose/Source/AAANKPose/Private/AAANKPoseBlueprintLibrary.cpp).

Null engine-object pointers are modelled as `Option`.  Every call into the
host engine that mutates or persists state (`Modify`, `AddAnimationAsset`,
`FScriptArrayHelper::EmptyValues`, `MarkPackageDirty`,
`PostEditChangeProperty`, `UPackage::SavePackage`) is recorded as a
`HostEvent` in the order the code performs it; `UE_LOG` lines are recorded
as `LogEntry` values in emission order.  Host-controlled outcomes that the
code merely consumes are passed in as parameters: the boolean result of
`UPackage::SavePackage`, the result of the reflection lookup
`FindPropertyByName("AnimationAssets")` combined with
`CastField<FArrayProperty>`, and the `WITH_EDITOR` preprocessor flag of the
AAANK module.
-/

/-- A host-engine animation sequence asset (`UAnimSequence`); only its name
is observable to this code. -/
structure AnimSequence where
  name : String
deriving DecidableEq, Repr

/-- A host-engine pose-search schema asset (`UPoseSearchSchema`); only its
name is observable to this code. -/
structure PoseSearchSchema where
  name : String
deriving DecidableEq, Repr

/-- The transient record handed to the host collection API
(`FPoseSearchDatabaseAnimationAsset`).  The POC library stores the animation
in its `Sequence` member and the AAANK library in its `AnimAsset` member;
in both cases the record carries exactly the one animation reference. -/
structure FPoseSearchDatabaseAnimationAsset where
  animRef : AnimSequence
deriving DecidableEq, Repr

/-- The host-engine motion-matching database asset (`UPoseSearchDatabase`):
a name, the `AnimationAssets` array, and an optional schema reference. -/
structure UPoseSearchDatabase where
  name : String
  animationAssets : List FPoseSearchDatabaseAnimationAsset
  schema : Option PoseSearchSchema
deriving DecidableEq, Repr

/-- Host API `UPoseSearchDatabase::GetNumAnimationAssets`. -/
def UPoseSearchDatabase.GetNumAnimationAssets (d : UPoseSearchDatabase) : Nat :=
  d.animationAssets.length

/-- Host API `UPoseSearchDatabase::AddAnimationAsset`: appends the record to
the `AnimationAssets` array. -/
def UPoseSearchDatabase.AddAnimationAsset (d : UPoseSearchDatabase)
    (a : FPoseSearchDatabaseAnimationAsset) : UPoseSearchDatabase :=
  { d with animationAssets := d.animationAssets ++ [a] }

/-- Object flags handed to `FSavePackageArgs::TopLevelFlags`. -/
inductive EObjectFlag
  | RF_Public
  | RF_Standalone
deriving DecidableEq, Repr

/-- Save flags handed to `FSavePackageArgs::SaveFlags`. -/
inductive ESaveFlag
  | SAVE_NoError
deriving DecidableEq, Repr

/-- Result of `FindPropertyByName("AnimationAssets")` followed by
`CastField<FArrayProperty>`: the property may be found as an array property,
found but of some other kind, or not found at all (`Option.none`). -/
inductive FPropertyKind
  | arrayProp
  | otherProp
deriving DecidableEq, Repr

/-- One call the library makes into the host engine, in program order. -/
inductive HostEvent
  | modify
  | addAnimationAsset (asset : FPoseSearchDatabaseAnimationAsset)
  | emptyValues
  | markPackageDirty
  | postEditChangeProperty (changedProperty : Option String)
  | savePackage (topLevelFlags : List EObjectFlag) (saveFlags : List ESaveFlag)
deriving DecidableEq, Repr

/-- `UE_LOG` verbosity levels used by this code. -/
inductive LogVerbosity
  | error
  | warning
  | info
deriving DecidableEq, Repr

/-- One `UE_LOG` line: verbosity and formatted message. -/
structure LogEntry where
  verbosity : LogVerbosity
  message : String
deriving DecidableEq, Repr

/-- The observable outcome of one library call: the returned value, the
database state afterwards (`none` when the handle was null), the host calls
made, and the log lines emitted. -/
structure CallResult (α : Type) where
  ret : α
  database : Option UPoseSearchDatabase
  events : List HostEvent
  logs : List LogEntry
deriving DecidableEq, Repr

/-- The body of the `for (UAnimSequence* Anim : AnimSequences)` loop shared
verbatim by both libraries' `AddAnimationsToDatabase`: skips null entries,
wraps each non-null entry in a `FPoseSearchDatabaseAnimationAsset`, hands it
to `AddAnimationAsset`, increments `AddedCount` and logs the progress line.
`total` is `AnimSequences.Num()`, `added` the running `AddedCount`. -/
def addAnimationsLoop (total : Nat) (db : UPoseSearchDatabase) (added : Nat) :
    List (Option AnimSequence) →
      UPoseSearchDatabase × Nat × List HostEvent × List LogEntry
  | [] => (db, added, [], [])
  | none :: rest => addAnimationsLoop total db added rest
  | some anim :: rest =>
    let asset : FPoseSearchDatabaseAnimationAsset := ⟨anim⟩
    let s := addAnimationsLoop total (db.AddAnimationAsset asset) (added + 1) rest
    (s.1, s.2.1, .addAnimationAsset asset :: s.2.2.1,
      ⟨.info, "Added animation " ++ toString (added + 1) ++ "/" ++ toString total
        ++ ": " ++ anim.name⟩ :: s.2.2.2)

namespace UPoseSearchPythonExtensionsLibrary

/-- `UPoseSearchPythonExtensionsLibrary::AddAnimationToDatabase`. -/
def AddAnimationToDatabase (Database : Option UPoseSearchDatabase)
    (AnimSeq : Option AnimSequence) : CallResult Bool :=
  match Database, AnimSeq with
  | some db, some anim =>
    let asset : FPoseSearchDatabaseAnimationAsset := ⟨anim⟩
    { ret := true
      database := some (db.AddAnimationAsset asset)
      events := [.modify, .addAnimationAsset asset, .markPackageDirty,
        .postEditChangeProperty none]
      logs := [⟨.info, "Adding animation \x27" ++ anim.name ++ "\x27 to database \x27"
          ++ db.name ++ "\x27"⟩,
        ⟨.info, "Successfully added animation to database"⟩] }
  | _, _ =>
    { ret := false
      database := Database
      events := []
      logs := [⟨.error, "AddAnimationToDatabase: Invalid database or animation"⟩] }

/-- `UPoseSearchPythonExtensionsLibrary::AddAnimationsToDatabase`. -/
def AddAnimationsToDatabase (Database : Option UPoseSearchDatabase)
    (AnimSequences : List (Option AnimSequence)) : CallResult Nat :=
  match Database with
  | none =>
    { ret := 0
      database := none
      events := []
      logs := [⟨.error, "AddAnimationsToDatabase: Invalid database"⟩] }
  | some db =>
    let s := addAnimationsLoop AnimSequences.length db 0 AnimSequences
    { ret := s.2.1
      database := some s.1
      events := [.modify] ++ s.2.2.1 ++ [.markPackageDirty, .postEditChangeProperty none]
      logs := s.2.2.2 ++ [⟨.info, "Added " ++ toString s.2.1 ++ "/"
        ++ toString AnimSequences.length ++ " animations to database \x27"
        ++ db.name ++ "\x27"⟩] }

/-- `UPoseSearchPythonExtensionsLibrary::BuildDatabase`.  `bSaved` is the
boolean result the host's `UPackage::SavePackage` returns for this call. -/
def BuildDatabase (bSaved : Bool) (Database : Option UPoseSearchDatabase) :
    CallResult Bool :=
  match Database with
  | none =>
    { ret := false
      database := none
      events := []
      logs := [⟨.error, "BuildDatabase: Invalid database"⟩] }
  | some db =>
    { ret := bSaved
      database := some db
      events := [.modify, .postEditChangeProperty none, .markPackageDirty,
        .savePackage [.RF_Public, .RF_Standalone] [.SAVE_NoError]]
      logs := [⟨.info, "Building database \x27" ++ db.name ++ "\x27"⟩] ++
        (if bSaved then [⟨.info, "Database built and saved successfully"⟩]
         else [⟨.warning, "Database built but save failed"⟩]) }

/-- `UPoseSearchPythonExtensionsLibrary::GetAnimationCount`. -/
def GetAnimationCount (Database : Option UPoseSearchDatabase) : CallResult Nat :=
  match Database with
  | none => { ret := 0, database := none, events := [], logs := [] }
  | some db =>
    { ret := db.GetNumAnimationAssets
      database := some db
      events := []
      logs := [] }

/-- `UPoseSearchPythonExtensionsLibrary::ClearDatabase`.  `animAssetsProperty`
is the outcome of the host reflection lookup of the `AnimationAssets`
property on the database class. -/
def ClearDatabase (animAssetsProperty : Option FPropertyKind)
    (Database : Option UPoseSearchDatabase) : CallResult Bool :=
  match Database with
  | none =>
    { ret := false
      database := none
      events := []
      logs := [⟨.error, "ClearDatabase: Invalid database"⟩] }
  | some db =>
    match animAssetsProperty with
    | none =>
      { ret := false
        database := some db
        events := [.modify]
        logs := [⟨.info, "Clearing database \x27" ++ db.name ++ "\x27"⟩,
          ⟨.error, "Could not find AnimationAssets property"⟩] }
    | some .otherProp =>
      { ret := false
        database := some db
        events := [.modify]
        logs := [⟨.info, "Clearing database \x27" ++ db.name ++ "\x27"⟩] }
    | some .arrayProp =>
      { ret := true
        database := some { db with animationAssets := [] }
        events := [.modify, .emptyValues, .markPackageDirty,
          .postEditChangeProperty (some "AnimationAssets")]
        logs := [⟨.info, "Clearing database \x27" ++ db.name ++ "\x27"⟩,
          ⟨.info, "Database cleared successfully"⟩] }

/-- `UPoseSearchPythonExtensionsLibrary::GetDatabaseInfo`. -/
def GetDatabaseInfo (Database : Option UPoseSearchDatabase) : CallResult String :=
  match Database with
  | none =>
    { ret := "Invalid database", database := none, events := [], logs := [] }
  | some db =>
    let schemaName := match db.schema with
      | some s => s.name
      | none => "None"
    { ret := "Database: " ++ db.name ++ "\nAnimations: "
        ++ toString db.GetNumAnimationAssets ++ "\nSchema: " ++ schemaName
      database := some db
      events := []
      logs := [] }

end UPoseSearchPythonExtensionsLibrary

namespace FAAANKPoseModule

/-- `FAAANKPoseModule::HelloWorld`. -/
def HelloWorld : String := "Hello World"

end FAAANKPoseModule

namespace UAAANKPoseBlueprintLibrary

/-- `UAAANKPoseBlueprintLibrary::GetHelloWorld`. -/
def GetHelloWorld : String := FAAANKPoseModule.HelloWorld

/-- `UAAANKPoseBlueprintLibrary::AddAnimationToDatabase`.  `withEditor` is
the `WITH_EDITOR` preprocessor flag of the build; the null check and the
first log line are outside the guard. -/
def AddAnimationToDatabase (withEditor : Bool)
    (Database : Option UPoseSearchDatabase) (AnimSeq : Option AnimSequence) :
    CallResult Bool :=
  match Database, AnimSeq with
  | some db, some anim =>
    let headerLog : LogEntry :=
      ⟨.info, "Adding animation \x27" ++ anim.name ++ "\x27 to database \x27"
        ++ db.name ++ "\x27"⟩
    if withEditor then
      let asset : FPoseSearchDatabaseAnimationAsset := ⟨anim⟩
      { ret := true
        database := some (db.AddAnimationAsset asset)
        events := [.modify, .addAnimationAsset asset, .markPackageDirty,
          .postEditChangeProperty none]
        logs := [headerLog, ⟨.info, "Successfully added animation to database"⟩] }
    else
      { ret := false
        database := some db
        events := []
        logs := [headerLog,
          ⟨.warning, "AddAnimationToDatabase is only available in editor builds"⟩] }
  | _, _ =>
    { ret := false
      database := Database
      events := []
      logs := [⟨.error, "AddAnimationToDatabase: Invalid database or animation"⟩] }

/-- `UAAANKPoseBlueprintLibrary::AddAnimationsToDatabase`. -/
def AddAnimationsToDatabase (withEditor : Bool)
    (Database : Option UPoseSearchDatabase)
    (AnimSequences : List (Option AnimSequence)) : CallResult Nat :=
  match Database with
  | none =>
    { ret := 0
      database := none
      events := []
      logs := [⟨.error, "AddAnimationsToDatabase: Invalid database"⟩] }
  | some db =>
    if withEditor then
      let s := addAnimationsLoop AnimSequences.length db 0 AnimSequences
      { ret := s.2.1
        database := some s.1
        events := [.modify] ++ s.2.2.1 ++ [.markPackageDirty, .postEditChangeProperty none]
        logs := s.2.2.2 ++ [⟨.info, "Added " ++ toString s.2.1 ++ "/"
          ++ toString AnimSequences.length ++ " animations to database \x27"
          ++ db.name ++ "\x27"⟩] }
    else
      { ret := 0
        database := some db
        events := []
        logs := [⟨.warning, "AddAnimationsToDatabase is only available in editor builds"⟩] }

/-- `UAAANKPoseBlueprintLibrary::BuildDatabase`: in editor builds it fires
the property-changed notification and marks the package dirty but performs
no package save and returns `true` unconditionally. -/
def BuildDatabase (withEditor : Bool) (Database : Option UPoseSearchDatabase) :
    CallResult Bool :=
  match Database with
  | none =>
    { ret := false
      database := none
      events := []
      logs := [⟨.error, "BuildDatabase: Invalid database"⟩] }
  | some db =>
    if withEditor then
      { ret := true
        database := some db
        events := [.modify, .postEditChangeProperty none, .markPackageDirty]
        logs := [⟨.info, "Building database \x27" ++ db.name ++ "\x27"⟩,
          ⟨.info, "Database rebuilt successfully"⟩] }
    else
      { ret := false
        database := some db
        events := []
        logs := [⟨.warning, "BuildDatabase is only available in editor builds"⟩] }

/-- `UAAANKPoseBlueprintLibrary::GetAnimationCount` (no editor guard). -/
def GetAnimationCount (Database : Option UPoseSearchDatabase) : CallResult Nat :=
  match Database with
  | none => { ret := 0, database := none, events := [], logs := [] }
  | some db =>
    { ret := db.GetNumAnimationAssets
      database := some db
      events := []
      logs := [] }

/-- `UAAANKPoseBlueprintLibrary::ClearDatabase`. -/
def ClearDatabase (withEditor : Bool) (animAssetsProperty : Option FPropertyKind)
    (Database : Option UPoseSearchDatabase) : CallResult Bool :=
  match Database with
  | none =>
    { ret := false
      database := none
      events := []
      logs := [⟨.error, "ClearDatabase: Invalid database"⟩] }
  | some db =>
    if withEditor then
      match animAssetsProperty with
      | none =>
        { ret := false
          database := some db
          events := [.modify]
          logs := [⟨.info, "Clearing database \x27" ++ db.name ++ "\x27"⟩,
            ⟨.error, "Could not find AnimationAssets property"⟩] }
      | some .otherProp =>
        { ret := false
          database := some db
          events := [.modify]
          logs := [⟨.info, "Clearing database \x27" ++ db.name ++ "\x27"⟩] }
      | some .arrayProp =>
        { ret := true
          database := some { db with animationAssets := [] }
          events := [.modify, .emptyValues, .markPackageDirty,
            .postEditChangeProperty (some "AnimationAssets")]
          logs := [⟨.info, "Clearing database \x27" ++ db.name ++ "\x27"⟩,
            ⟨.info, "Database cleared successfully"⟩] }
    else
      { ret := false
        database := some db
        events := []
        logs := [⟨.warning, "ClearDatabase is only available in editor builds"⟩] }

/-- `UAAANKPoseBlueprintLibrary::GetDatabaseInfo` (no editor guard). -/
def GetDatabaseInfo (Database : Option UPoseSearchDatabase) : CallResult String :=
  match Database with
  | none =>
    { ret := "Invalid database", database := none, events := [], logs := [] }
  | some db =>
    let schemaName := match db.schema with
      | some s => s.name
      | none => "None"
    { ret := "Database: " ++ db.name ++ "\nAnimations: "
        ++ toString db.GetNumAnimationAssets ++ "\nSchema: " ++ schemaName
      database := some db
      events := []
      logs := [] }

end UAAANKPoseBlueprintLibrary

/-- `true` exactly for a `savePackage` host event. -/
def HostEvent.isSavePackage : HostEvent → Bool
  | .savePackage _ _ => true
  | _ => false

/-- A concrete database used for counterexamples and witnesses. -/
def sampleDb : UPoseSearchDatabase :=
  { name := "TestDatabase", animationAssets := [], schema := none }

/-- Calling the POC single-entry add once per animation in the list,
feeding each call the database state produced by the previous call. -/
def iterateSingleAdds (db : UPoseSearchDatabase) :
    List AnimSequence → UPoseSearchDatabase
  | [] => db
  | a :: rest =>
    iterateSingleAdds
      ((UPoseSearchPythonExtensionsLibrary.AddAnimationToDatabase
        (some db) (some a)).database.getD db) rest

/-- Calling the AAANK single-entry add (editor build) once per animation in
the list, feeding each call the database state produced by the previous
call. -/
def iterateSingleAddsAAANK (db : UPoseSearchDatabase) :
    List AnimSequence → UPoseSearchDatabase
  | [] => db
  | a :: rest =>
    iterateSingleAddsAAANK
      ((UAAANKPoseBlueprintLibrary.AddAnimationToDatabase true
        (some db) (some a)).database.getD db) rest

theorem addAnimationsLoop_db (total : Nat) (l : List (Option AnimSequence))
    (db : UPoseSearchDatabase) (added : Nat) :
    (addAnimationsLoop total db added l).1 =
      { db with animationAssets :=
          db.animationAssets ++ (l.filterMap id).map (fun a => ⟨a⟩) } := by
  induction l generalizing db added with
  | nil => simp [addAnimationsLoop]
  | cons o rest ih =>
    cases o with
    | none => simp [addAnimationsLoop, ih]
    | some a =>
      simp [addAnimationsLoop, ih, UPoseSearchDatabase.AddAnimationAsset]

theorem addAnimationsLoop_added (total : Nat) (l : List (Option AnimSequence))
    (db : UPoseSearchDatabase) (added : Nat) :
    (addAnimationsLoop total db added l).2.1 =
      added + (l.filterMap id).length := by
  induction l generalizing db added with
  | nil => simp [addAnimationsLoop]
  | cons o rest ih =>
    cases o with
    | none => simp [addAnimationsLoop, ih]
    | some a =>
      simp [addAnimationsLoop, ih]
      omega

theorem addAnimationsLoop_events (total : Nat) (l : List (Option AnimSequence))
    (db : UPoseSearchDatabase) (added : Nat) :
    (addAnimationsLoop total db added l).2.2.1 =
      (l.filterMap id).map (fun a => HostEvent.addAnimationAsset ⟨a⟩) := by
  induction l generalizing db added with
  | nil => simp [addAnimationsLoop]
  | cons o rest ih =>
    cases o with
    | none => simp [addAnimationsLoop, ih]
    | some a => simp [addAnimationsLoop, ih]

/-- C1: a batch add on a non-null database whose input list holds N non-null
and M null entries returns exactly N, and the resulting database holds all
pre-existing entries followed by the N new records in order (null entries
are skipped; nothing already added is rolled back).  This holds for the POC
library and for the AAANK library in an editor build. -/
theorem C1_batch_add_counts_and_appends_valid_entries
    (db : UPoseSearchDatabase) (anims : List (Option AnimSequence)) :
    (UPoseSearchPythonExtensionsLibrary.AddAnimationsToDatabase (some db) anims).ret
        = (anims.filterMap id).length ∧
    (UPoseSearchPythonExtensionsLibrary.AddAnimationsToDatabase (some db) anims).database
        = some { db with animationAssets :=
            db.animationAssets ++ (anims.filterMap id).map (fun a => ⟨a⟩) } ∧
    (UAAANKPoseBlueprintLibrary.AddAnimationsToDatabase true (some db) anims).ret
        = (anims.filterMap id).length ∧
    (UAAANKPoseBlueprintLibrary.AddAnimationsToDatabase true (some db) anims).database
        = some { db with animationAssets :=
            db.animationAssets ++ (anims.filterMap id).map (fun a => ⟨a⟩) } := by
  refine ⟨?_, ?_, ?_, ?_⟩ <;>
    simp [UPoseSearchPythonExtensionsLibrary.AddAnimationsToDatabase,
      UAAANKPoseBlueprintLibrary.AddAnimationsToDatabase,
      addAnimationsLoop_db, addAnimationsLoop_added]

/-- C2 counterexample: the two libraries' `BuildDatabase` are not
equivalent.  On the same non-null database, when the host save routine
reports failure the POC version returns `false` while the AAANK editor-build
version returns `true`; and even when the save succeeds, the POC version
makes a `savePackage` host call that the AAANK version never makes. -/
theorem C2_cx_BuildDatabase_not_equivalent :
    (UPoseSearchPythonExtensionsLibrary.BuildDatabase false (some sampleDb)).ret
      ≠ (UAAANKPoseBlueprintLibrary.BuildDatabase true (some sampleDb)).ret ∧
    (UPoseSearchPythonExtensionsLibrary.BuildDatabase true (some sampleDb)).events
      ≠ (UAAANKPoseBlueprintLibrary.BuildDatabase true (some sampleDb)).events := by
  decide

/-- C2 amended: in editor builds, the five operations
AddAnimationToDatabase, AddAnimationsToDatabase, GetAnimationCount,
ClearDatabase and GetDatabaseInfo of the AAANK library coincide exactly
(result, database effect, host calls and log lines) with the POC library,
and the greeting function is extra; but BuildDatabase differs beyond
cosmetics: the POC version invokes the package save routine and returns its
boolean result, while the AAANK editor-build version makes no save call and
returns `true` unconditionally. -/
theorem C2_amended_equivalence_except_BuildDatabase
    (db : Option UPoseSearchDatabase) (a : Option AnimSequence)
    (anims : List (Option AnimSequence)) (p : Option FPropertyKind)
    (b : Bool) (d : UPoseSearchDatabase) :
    UAAANKPoseBlueprintLibrary.AddAnimationToDatabase true db a
      = UPoseSearchPythonExtensionsLibrary.AddAnimationToDatabase db a ∧
    UAAANKPoseBlueprintLibrary.AddAnimationsToDatabase true db anims
      = UPoseSearchPythonExtensionsLibrary.AddAnimationsToDatabase db anims ∧
    UAAANKPoseBlueprintLibrary.GetAnimationCount db
      = UPoseSearchPythonExtensionsLibrary.GetAnimationCount db ∧
    UAAANKPoseBlueprintLibrary.ClearDatabase true p db
      = UPoseSearchPythonExtensionsLibrary.ClearDatabase p db ∧
    UAAANKPoseBlueprintLibrary.GetDatabaseInfo db
      = UPoseSearchPythonExtensionsLibrary.GetDatabaseInfo db ∧
    UAAANKPoseBlueprintLibrary.GetHelloWorld = "Hello World" ∧
    (UPoseSearchPythonExtensionsLibrary.BuildDatabase b (some d)).ret = b ∧
    ((UPoseSearchPythonExtensionsLibrary.BuildDatabase b (some d)).events.contains
      (.savePackage [.RF_Public, .RF_Standalone] [.SAVE_NoError]) = true) ∧
    (UAAANKPoseBlueprintLibrary.BuildDatabase true (some d)).ret = true ∧
    ((UAAANKPoseBlueprintLibrary.BuildDatabase true (some d)).events.all
      (fun e => ! e.isSavePackage) = true) := by
  refine ⟨?_, ?_, ?_, ?_, ?_, rfl, ?_, ?_, ?_, ?_⟩
  · cases db <;> cases a <;>
      simp [UAAANKPoseBlueprintLibrary.AddAnimationToDatabase,
        UPoseSearchPythonExtensionsLibrary.AddAnimationToDatabase]
  · cases db <;>
      simp [UAAANKPoseBlueprintLibrary.AddAnimationsToDatabase,
        UPoseSearchPythonExtensionsLibrary.AddAnimationsToDatabase]
  · cases db <;>
      simp [UAAANKPoseBlueprintLibrary.GetAnimationCount,
        UPoseSearchPythonExtensionsLibrary.GetAnimationCount]
  · cases db with
    | none =>
      simp [UAAANKPoseBlueprintLibrary.ClearDatabase,
        UPoseSearchPythonExtensionsLibrary.ClearDatabase]
    | some d2 =>
      cases p with
      | none =>
        simp [UAAANKPoseBlueprintLibrary.ClearDatabase,
          UPoseSearchPythonExtensionsLibrary.ClearDatabase]
      | some k =>
        cases k <;>
          simp [UAAANKPoseBlueprintLibrary.ClearDatabase,
            UPoseSearchPythonExtensionsLibrary.ClearDatabase]
  · cases db <;>
      simp [UAAANKPoseBlueprintLibrary.GetDatabaseInfo,
        UPoseSearchPythonExtensionsLibrary.GetDatabaseInfo]
  · simp [UPoseSearchPythonExtensionsLibrary.BuildDatabase]
  · simp [UPoseSearchPythonExtensionsLibrary.BuildDatabase]
  · simp [UAAANKPoseBlueprintLibrary.BuildDatabase]
  · simp [UAAANKPoseBlueprintLibrary.BuildDatabase, HostEvent.isSavePackage]

/-- C3 counterexample: on a concrete non-null database, the AAANK
`BuildDatabase` in an editor build fires the notification and marks the
package dirty but never invokes the package save routine, and returns
`true` regardless of any save outcome — contradicting the claim that every
BuildDatabase invokes the save routine and returns its boolean result. -/
theorem C3_cx_AAANK_build_never_saves :
    (UAAANKPoseBlueprintLibrary.BuildDatabase true (some sampleDb)).ret = true ∧
    (UAAANKPoseBlueprintLibrary.BuildDatabase true (some sampleDb)).events
      = [.modify, .postEditChangeProperty none, .markPackageDirty] := by
  decide

/-- C3 amended: in the POC library, BuildDatabase on a non-null database
calls Modify, fires the property-changed notification, marks the package
dirty and then invokes the package save routine with top-level flags
RF_Public and RF_Standalone (and SAVE_NoError), its boolean result equals
the save routine's result, and on save failure it logs a warning and
returns `false` with the notification already fired; the AAANK
BuildDatabase performs no save at all and returns `true` in editor
builds. -/
theorem C3_amended_poc_build_saves_and_propagates
    (d : UPoseSearchDatabase) (b : Bool) :
    (UPoseSearchPythonExtensionsLibrary.BuildDatabase b (some d)).events
      = [.modify, .postEditChangeProperty none, .markPackageDirty,
        .savePackage [.RF_Public, .RF_Standalone] [.SAVE_NoError]] ∧
    (UPoseSearchPythonExtensionsLibrary.BuildDatabase b (some d)).ret = b ∧
    (UPoseSearchPythonExtensionsLibrary.BuildDatabase false (some d)).logs
      = [⟨.info, "Building database \x27" ++ d.name ++ "\x27"⟩,
        ⟨.warning, "Database built but save failed"⟩] ∧
    (UAAANKPoseBlueprintLibrary.BuildDatabase true (some d)).ret = true ∧
    ((UAAANKPoseBlueprintLibrary.BuildDatabase true (some d)).events.all
      (fun e => ! e.isSavePackage) = true) := by
  refine ⟨?_, ?_, ?_, ?_, ?_⟩ <;>
    simp [UPoseSearchPythonExtensionsLibrary.BuildDatabase,
      UAAANKPoseBlueprintLibrary.BuildDatabase, HostEvent.isSavePackage]

/-- C4 counterexample: a null-database call to the POC `GetAnimationCount`
returns the sentinel 0 but writes no log line at all, contradicting the
claim that every operation logs its null-handle failure (the AAANK version
and both `GetDatabaseInfo` variants behave the same way). -/
theorem C4_cx_null_count_logs_nothing :
    (UPoseSearchPythonExtensionsLibrary.GetAnimationCount none).ret = 0 ∧
    (UPoseSearchPythonExtensionsLibrary.GetAnimationCount none).logs = [] ∧
    (UPoseSearchPythonExtensionsLibrary.GetDatabaseInfo none).logs = [] := by
  decide

/-- C4 amended: in both libraries, a call with a null database handle (or,
for the single add, a null animation handle) returns the documented failure
sentinel — `false` for the boolean operations, 0 for the counting
operations, the string "Invalid database" for GetDatabaseInfo — makes no
host call (no Modify, insertion, dirty-marking or notification) and leaves
the database unchanged; the boolean operations and the batch add log an
error line, while GetAnimationCount and GetDatabaseInfo return their
sentinel without logging.  For the AAANK library this holds in both editor
and non-editor builds. -/
theorem C4_amended_null_inputs_sentinels_no_side_effects
    (a : Option AnimSequence) (ed b : Bool) (p : Option FPropertyKind)
    (anims : List (Option AnimSequence)) (d : UPoseSearchDatabase) :
    UPoseSearchPythonExtensionsLibrary.AddAnimationToDatabase none a
      = ⟨false, none, [],
        [⟨.error, "AddAnimationToDatabase: Invalid database or animation"⟩]⟩ ∧
    UPoseSearchPythonExtensionsLibrary.AddAnimationToDatabase (some d) none
      = ⟨false, some d, [],
        [⟨.error, "AddAnimationToDatabase: Invalid database or animation"⟩]⟩ ∧
    UPoseSearchPythonExtensionsLibrary.AddAnimationsToDatabase none anims
      = ⟨0, none, [], [⟨.error, "AddAnimationsToDatabase: Invalid database"⟩]⟩ ∧
    UPoseSearchPythonExtensionsLibrary.BuildDatabase b none
      = ⟨false, none, [], [⟨.error, "BuildDatabase: Invalid database"⟩]⟩ ∧
    UPoseSearchPythonExtensionsLibrary.GetAnimationCount none
      = ⟨0, none, [], []⟩ ∧
    UPoseSearchPythonExtensionsLibrary.ClearDatabase p none
      = ⟨false, none, [], [⟨.error, "ClearDatabase: Invalid database"⟩]⟩ ∧
    UPoseSearchPythonExtensionsLibrary.GetDatabaseInfo none
      = ⟨"Invalid database", none, [], []⟩ ∧
    UAAANKPoseBlueprintLibrary.AddAnimationToDatabase ed none a
      = ⟨false, none, [],
        [⟨.error, "AddAnimationToDatabase: Invalid database or animation"⟩]⟩ ∧
    UAAANKPoseBlueprintLibrary.AddAnimationToDatabase ed (some d) none
      = ⟨false, some d, [],
        [⟨.error, "AddAnimationToDatabase: Invalid database or animation"⟩]⟩ ∧
    UAAANKPoseBlueprintLibrary.AddAnimationsToDatabase ed none anims
      = ⟨0, none, [], [⟨.error, "AddAnimationsToDatabase: Invalid database"⟩]⟩ ∧
    UAAANKPoseBlueprintLibrary.BuildDatabase ed none
      = ⟨false, none, [], [⟨.error, "BuildDatabase: Invalid database"⟩]⟩ ∧
    UAAANKPoseBlueprintLibrary.GetAnimationCount none
      = ⟨0, none, [], []⟩ ∧
    UAAANKPoseBlueprintLibrary.ClearDatabase ed p none
      = ⟨false, none, [], [⟨.error, "ClearDatabase: Invalid database"⟩]⟩ ∧
    UAAANKPoseBlueprintLibrary.GetDatabaseInfo none
      = ⟨"Invalid database", none, [], []⟩ := by
  exact ⟨rfl, rfl, rfl, rfl, rfl, rfl, rfl, rfl, rfl, rfl, rfl, rfl, rfl, rfl⟩

theorem iterateSingleAdds_eq (anims : List AnimSequence)
    (db : UPoseSearchDatabase) :
    iterateSingleAdds db anims =
      { db with animationAssets :=
          db.animationAssets ++ anims.map (fun a => ⟨a⟩) } := by
  induction anims generalizing db with
  | nil => simp [iterateSingleAdds]
  | cons a rest ih =>
    simp [iterateSingleAdds,
      UPoseSearchPythonExtensionsLibrary.AddAnimationToDatabase,
      UPoseSearchDatabase.AddAnimationAsset, ih]

theorem iterateSingleAddsAAANK_eq (anims : List AnimSequence)
    (db : UPoseSearchDatabase) :
    iterateSingleAddsAAANK db anims =
      { db with animationAssets :=
          db.animationAssets ++ anims.map (fun a => ⟨a⟩) } := by
  induction anims generalizing db with
  | nil => simp [iterateSingleAddsAAANK]
  | cons a rest ih =>
    simp [iterateSingleAddsAAANK,
      UAAANKPoseBlueprintLibrary.AddAnimationToDatabase,
      UPoseSearchDatabase.AddAnimationAsset, ih]

/-- C5: starting from a non-null database with pre-existing count C, adding
K non-null animation sequences — either by K successive calls to the
single-entry add or by one batch call with K valid entries — makes
GetAnimationCount return C + K, in both libraries. -/
theorem C5_count_after_adding_K
    (db : UPoseSearchDatabase) (anims : List AnimSequence) :
    (UPoseSearchPythonExtensionsLibrary.GetAnimationCount
        (some (iterateSingleAdds db anims))).ret
      = db.GetNumAnimationAssets + anims.length ∧
    (UPoseSearchPythonExtensionsLibrary.GetAnimationCount
        (UPoseSearchPythonExtensionsLibrary.AddAnimationsToDatabase
          (some db) (anims.map some)).database).ret
      = db.GetNumAnimationAssets + anims.length ∧
    (UAAANKPoseBlueprintLibrary.GetAnimationCount
        (some (iterateSingleAddsAAANK db anims))).ret
      = db.GetNumAnimationAssets + anims.length ∧
    (UAAANKPoseBlueprintLibrary.GetAnimationCount
        (UAAANKPoseBlueprintLibrary.AddAnimationsToDatabase true
          (some db) (anims.map some)).database).ret
      = db.GetNumAnimationAssets + anims.length := by
  refine ⟨?_, ?_, ?_, ?_⟩ <;>
    simp [UPoseSearchPythonExtensionsLibrary.GetAnimationCount,
      UAAANKPoseBlueprintLibrary.GetAnimationCount,
      UPoseSearchPythonExtensionsLibrary.AddAnimationsToDatabase,
      UAAANKPoseBlueprintLibrary.AddAnimationsToDatabase,
      iterateSingleAdds_eq, iterateSingleAddsAAANK_eq,
      addAnimationsLoop_db, UPoseSearchDatabase.GetNumAnimationAssets]

/-- C6: on a non-null database whose animation-asset list is already empty,
ClearDatabase (with the host reflection lookup resolving AnimationAssets to
an array property, as it does on the real database class) returns `true`,
and GetAnimationCount on the resulting database returns 0 — in both
libraries (AAANK in an editor build). -/
theorem C6_clear_already_empty_database
    (db : UPoseSearchDatabase) (_hEmpty : db.animationAssets = []) :
    (UPoseSearchPythonExtensionsLibrary.ClearDatabase
        (some .arrayProp) (some db)).ret = true ∧
    (UPoseSearchPythonExtensionsLibrary.GetAnimationCount
        (UPoseSearchPythonExtensionsLibrary.ClearDatabase
          (some .arrayProp) (some db)).database).ret = 0 ∧
    (UAAANKPoseBlueprintLibrary.ClearDatabase true
        (some .arrayProp) (some db)).ret = true ∧
    (UAAANKPoseBlueprintLibrary.GetAnimationCount
        (UAAANKPoseBlueprintLibrary.ClearDatabase true
          (some .arrayProp) (some db)).database).ret = 0 := by
  refine ⟨rfl, ?_, rfl, ?_⟩ <;>
    simp [UPoseSearchPythonExtensionsLibrary.ClearDatabase,
      UPoseSearchPythonExtensionsLibrary.GetAnimationCount,
      UAAANKPoseBlueprintLibrary.ClearDatabase,
      UAAANKPoseBlueprintLibrary.GetAnimationCount,
      UPoseSearchDatabase.GetNumAnimationAssets]

/-- C6 witness: the theorem instantiated at the concrete empty database. -/
theorem C6_clear_already_empty_database_witness :
    (UPoseSearchPythonExtensionsLibrary.ClearDatabase
        (some .arrayProp) (some sampleDb)).ret = true ∧
    (UPoseSearchPythonExtensionsLibrary.GetAnimationCount
        (UPoseSearchPythonExtensionsLibrary.ClearDatabase
          (some .arrayProp) (some sampleDb)).database).ret = 0 ∧
    (UAAANKPoseBlueprintLibrary.ClearDatabase true
        (some .arrayProp) (some sampleDb)).ret = true ∧
    (UAAANKPoseBlueprintLibrary.GetAnimationCount
        (UAAANKPoseBlueprintLibrary.ClearDatabase true
          (some .arrayProp) (some sampleDb)).database).ret = 0 :=
  C6_clear_already_empty_database sampleDb rfl

/-- C7: on a non-null database for which the reflection lookup of the
property named "AnimationAssets" fails, ClearDatabase logs the error
"Could not find AnimationAssets property" and returns `false`, and the
database (its animation-asset list included) is left unchanged — in both
libraries (AAANK in an editor build). -/
theorem C7_clear_missing_property_fails_without_clearing
    (db : UPoseSearchDatabase) :
    (UPoseSearchPythonExtensionsLibrary.ClearDatabase none (some db)).ret
      = false ∧
    (UPoseSearchPythonExtensionsLibrary.ClearDatabase none (some db)).logs.contains
      ⟨.error, "Could not find AnimationAssets property"⟩ = true ∧
    (UPoseSearchPythonExtensionsLibrary.ClearDatabase none (some db)).database
      = some db ∧
    (UAAANKPoseBlueprintLibrary.ClearDatabase true none (some db)).ret
      = false ∧
    (UAAANKPoseBlueprintLibrary.ClearDatabase true none (some db)).logs.contains
      ⟨.error, "Could not find AnimationAssets property"⟩ = true ∧
    (UAAANKPoseBlueprintLibrary.ClearDatabase true none (some db)).database
      = some db := by
  refine ⟨rfl, ?_, rfl, rfl, ?_, rfl⟩ <;>
    simp [UPoseSearchPythonExtensionsLibrary.ClearDatabase,
      UAAANKPoseBlueprintLibrary.ClearDatabase]

/-- C8: with non-null handles, the ingestion functions of both libraries
(editor build for AAANK) make exactly these host calls in this order:
Modify, then one AddAnimationAsset per (non-null) animation, then
MarkPackageDirty, then the property-changed notification — so dirty-marking
and the notification come after every insertion. -/
theorem C8_ingestion_step_order
    (db : UPoseSearchDatabase) (a : AnimSequence)
    (anims : List (Option AnimSequence)) :
    (UPoseSearchPythonExtensionsLibrary.AddAnimationToDatabase
        (some db) (some a)).events
      = [.modify, .addAnimationAsset ⟨a⟩, .markPackageDirty,
        .postEditChangeProperty none] ∧
    (UPoseSearchPythonExtensionsLibrary.AddAnimationsToDatabase
        (some db) anims).events
      = [HostEvent.modify]
        ++ (anims.filterMap id).map (fun x => HostEvent.addAnimationAsset ⟨x⟩)
        ++ [HostEvent.markPackageDirty, HostEvent.postEditChangeProperty none] ∧
    (UAAANKPoseBlueprintLibrary.AddAnimationToDatabase true
        (some db) (some a)).events
      = [.modify, .addAnimationAsset ⟨a⟩, .markPackageDirty,
        .postEditChangeProperty none] ∧
    (UAAANKPoseBlueprintLibrary.AddAnimationsToDatabase true
        (some db) anims).events
      = [HostEvent.modify]
        ++ (anims.filterMap id).map (fun x => HostEvent.addAnimationAsset ⟨x⟩)
        ++ [HostEvent.markPackageDirty, HostEvent.postEditChangeProperty none] := by
  refine ⟨rfl, ?_, rfl, ?_⟩ <;>
    simp [UPoseSearchPythonExtensionsLibrary.AddAnimationsToDatabase,
      UAAANKPoseBlueprintLibrary.AddAnimationsToDatabase,
      addAnimationsLoop_events]

/-- C9: on a non-null database, GetDatabaseInfo of either library returns
exactly the string "Database: <name>\nAnimations: <count>\nSchema: <schema
name, or None when the schema is null>", makes no host call (no Modify,
dirty-marking or notification) and leaves the database unchanged. -/
theorem C9_info_string_and_no_mutation (db : UPoseSearchDatabase) :
    (UPoseSearchPythonExtensionsLibrary.GetDatabaseInfo (some db)).ret
      = "Database: " ++ db.name ++ "\nAnimations: "
        ++ toString db.GetNumAnimationAssets ++ "\nSchema: "
        ++ (match db.schema with | some s => s.name | none => "None") ∧
    (UPoseSearchPythonExtensionsLibrary.GetDatabaseInfo (some db)).events = [] ∧
    (UPoseSearchPythonExtensionsLibrary.GetDatabaseInfo (some db)).logs = [] ∧
    (UPoseSearchPythonExtensionsLibrary.GetDatabaseInfo (some db)).database
      = some db ∧
    (UAAANKPoseBlueprintLibrary.GetDatabaseInfo (some db)).ret
      = "Database: " ++ db.name ++ "\nAnimations: "
        ++ toString db.GetNumAnimationAssets ++ "\nSchema: "
        ++ (match db.schema with | some s => s.name | none => "None") ∧
    (UAAANKPoseBlueprintLibrary.GetDatabaseInfo (some db)).events = [] ∧
    (UAAANKPoseBlueprintLibrary.GetDatabaseInfo (some db)).logs = [] ∧
    (UAAANKPoseBlueprintLibrary.GetDatabaseInfo (some db)).database
      = some db :=
  ⟨rfl, rfl, rfl, rfl, rfl, rfl, rfl, rfl⟩

/-- C10 counterexample: on a concrete non-null database whose
AnimationAssets property resolves to a non-array property, ClearDatabase
does return `false`, but it is not true that it writes no log line: the
initial "Clearing database ..." line has already been logged. -/
theorem C10_cx_clear_nonarray_has_logged :
    (UPoseSearchPythonExtensionsLibrary.ClearDatabase
        (some .otherProp) (some sampleDb)).ret = false ∧
    (UPoseSearchPythonExtensionsLibrary.ClearDatabase
        (some .otherProp) (some sampleDb)).logs ≠ [] := by
  decide

/-- C10 amended: on a non-null database whose "AnimationAssets" property is
found but is not an array property, ClearDatabase returns `false` without
writing any further log line beyond the initial "Clearing database <name>"
progress line (in particular no failure-specific line), after having
already called Modify on the database but without clearing, dirty-marking
or notifying it — in both libraries (AAANK in an editor build). -/
theorem C10_amended_clear_nonarray_property (db : UPoseSearchDatabase) :
    UPoseSearchPythonExtensionsLibrary.ClearDatabase
        (some .otherProp) (some db)
      = ⟨false, some db, [.modify],
        [⟨.info, "Clearing database \x27" ++ db.name ++ "\x27"⟩]⟩ ∧
    UAAANKPoseBlueprintLibrary.ClearDatabase true
        (some .otherProp) (some db)
      = ⟨false, some db, [.modify],
        [⟨.info, "Clearing database \x27" ++ db.name ++ "\x27"⟩]⟩ :=
  ⟨rfl, rfl⟩
